import Mathlib

/-!
Verification of the kinemat-lab forward-kinematics and animation engine.

The definitions below are shallow embeddings of the JavaScript source:
* `calculateForwardKinematics`, `calculateForwardKinematicsDegrees`,
  `DEFAULT_LINK_LENGTHS`, `DEFAULT_CONFIG` from
  `src/components/kinematics/forwardkinematics.js`;
* the frame animators, sequencer windowing and animation clocks from
  `src/components/robot/robot2d.js` (2D) and `Robot3d.js` (3D).

Numbers are modelled as real numbers (`ℝ`); a separate rational model of
IEEE-754 binary64 rounding (`fl64`) is used where a claim is specifically
about bit-level floating-point behaviour, and a lifted `Option ℝ` model
(`none` = a non-finite JavaScript number, i.e. NaN or ±Infinity) is used
where a claim is about non-finite propagation.
-/

namespace KinematLab

/-- A 2D point, as the solver's `{ x, y }` records. -/
structure Point where
  x : ℝ
  y : ℝ

/-- Joint angles `{ theta1, theta2, theta3 }` in radians. -/
structure Angles where
  theta1 : ℝ
  theta2 : ℝ
  theta3 : ℝ

/-- Link lengths `{ L1, L2, L3 }` in mm. -/
structure LinkLengths where
  L1 : ℝ
  L2 : ℝ
  L3 : ℝ

/-- A fully-resolved configuration (the shape of `DEFAULT_CONFIG` and of the
merged `finalConfig`). -/
structure Config where
  linkLengths : LinkLengths
  scale : ℝ
  baseX : ℝ
  baseY : ℝ

/-- `DEFAULT_LINK_LENGTHS = { L1: 40, L2: 70, L3: 50 }`. -/
noncomputable def DEFAULT_LINK_LENGTHS : LinkLengths := ⟨40, 70, 50⟩

/-- `DEFAULT_CONFIG = { linkLengths: DEFAULT_LINK_LENGTHS, scale: 2, baseX: 0, baseY: 0 }`. -/
noncomputable def DEFAULT_CONFIG : Config := ⟨DEFAULT_LINK_LENGTHS, 2, 0, 0⟩

/-- A possibly-incomplete `linkLengths` object passed by the caller:
`none` means the key is absent from the object literal. -/
structure LinkLengthsOpt where
  L1 : Option ℝ
  L2 : Option ℝ
  L3 : Option ℝ

/-- A possibly-incomplete `config` object passed by the caller: `none` means
the key is absent (the solver's default parameter is the empty object `{}`,
i.e. all fields `none`). -/
structure ConfigOpt where
  linkLengths : Option LinkLengthsOpt
  scale : Option ℝ
  baseX : Option ℝ
  baseY : Option ℝ

/-- The empty object `{}` (the solver's default `config`). -/
def emptyConfig : ConfigOpt := ⟨none, none, none, none⟩

/-- The JavaScript spread merge
`{ ...DEFAULT_CONFIG.linkLengths, ...(config.linkLengths || {}) }`:
each present field of the override wins, each absent field keeps the default.
`config.linkLengths || {}` is the `getD` of the outer option. -/
noncomputable def mergeLinkLengths (c : Option LinkLengthsOpt) : LinkLengths :=
  let o := c.getD ⟨none, none, none⟩
  ⟨o.L1.getD DEFAULT_LINK_LENGTHS.L1,
   o.L2.getD DEFAULT_LINK_LENGTHS.L2,
   o.L3.getD DEFAULT_LINK_LENGTHS.L3⟩

/-- The merge at the top of `calculateForwardKinematics`:
`{ ...DEFAULT_CONFIG, ...config, linkLengths: { ...DEFAULT_CONFIG.linkLengths, ...(config.linkLengths || {}) } }`. -/
noncomputable def mergeConfig (config : ConfigOpt) : Config :=
  { linkLengths := mergeLinkLengths config.linkLengths
    scale := config.scale.getD DEFAULT_CONFIG.scale
    baseX := config.baseX.getD DEFAULT_CONFIG.baseX
    baseY := config.baseY.getD DEFAULT_CONFIG.baseY }

/-- `Math.hypot(a, b)` on two arguments: the Euclidean norm `sqrt (a² + b²)`. -/
noncomputable def hypot (a b : ℝ) : ℝ := Real.sqrt (a ^ 2 + b ^ 2)

/-- The cumulative absolute angles returned by the solver. -/
structure CumAngles where
  absolute1 : ℝ
  absolute2 : ℝ
  absolute3 : ℝ

/-- The realized link lengths returned by the solver. -/
structure RealizedLinks where
  link1 : ℝ
  link2 : ℝ
  link3 : ℝ

/-- The record returned by `calculateForwardKinematics`. -/
structure FKResult where
  base : Point
  joint1 : Point
  joint2 : Point
  joint3 : Point
  allJoints : List Point
  angles : CumAngles
  linkLengths : RealizedLinks
  reach : ℝ
  config : Config

/-- Shallow embedding of `calculateForwardKinematics(angles, config)` from
`forwardkinematics.js` (lines 368–446), over real numbers.  Note the source
computes each `y` as `previous.y - L*scale*Math.sin(angle)` (canvas y-down
convention), and that is reproduced faithfully here. -/
noncomputable def calculateForwardKinematics (angles : Angles) (config : ConfigOpt) : FKResult :=
  let finalConfig := mergeConfig config
  let L1 := finalConfig.linkLengths.L1
  let L2 := finalConfig.linkLengths.L2
  let L3 := finalConfig.linkLengths.L3
  let scale := finalConfig.scale
  let base : Point := ⟨finalConfig.baseX, finalConfig.baseY⟩
  let angle1 := angles.theta1
  let angle2 := angles.theta1 + angles.theta2
  let angle3 := angles.theta1 + angles.theta2 + angles.theta3
  let joint1 : Point :=
    ⟨base.x + L1 * scale * Real.cos angle1, base.y - L1 * scale * Real.sin angle1⟩
  let joint2 : Point :=
    ⟨joint1.x + L2 * scale * Real.cos angle2, joint1.y - L2 * scale * Real.sin angle2⟩
  let joint3 : Point :=
    ⟨joint2.x + L3 * scale * Real.cos angle3, joint2.y - L3 * scale * Real.sin angle3⟩
  let linkLengths : RealizedLinks :=
    ⟨hypot (joint1.x - base.x) (joint1.y - base.y),
     hypot (joint2.x - joint1.x) (joint2.y - joint1.y),
     hypot (joint3.x - joint2.x) (joint3.y - joint2.y)⟩
  let reach := hypot (joint3.x - base.x) (joint3.y - base.y)
  { base := base
    joint1 := joint1
    joint2 := joint2
    joint3 := joint3
    allJoints := [base, joint1, joint2, joint3]
    angles := ⟨angle1, angle2, angle3⟩
    linkLengths := linkLengths
    reach := reach
    config := finalConfig }

/-- Angles object passed to the degrees entry point: each field may be
absent/undefined (`none`). -/
structure AnglesOpt where
  theta1 : Option ℝ
  theta2 : Option ℝ
  theta3 : Option ℝ

/-- JavaScript `x || 0` on a possibly-missing number restricted to real
values: `undefined` is falsy, and among the reals exactly `0` is falsy. -/
noncomputable def orZero (x : Option ℝ) : ℝ :=
  match x with
  | none => 0
  | some v => if v = 0 then 0 else v

/-- Shallow embedding of `calculateForwardKinematicsDegrees(angles, config)`
(`forwardkinematics.js` lines 455–464): each angle runs through `(… || 0)`
and is multiplied by `Math.PI / 180`. -/
noncomputable def calculateForwardKinematicsDegrees (angles : AnglesOpt) (config : ConfigOpt) :
    FKResult :=
  calculateForwardKinematics
    ⟨orZero angles.theta1 * (Real.pi / 180),
     orZero angles.theta2 * (Real.pi / 180),
     orZero angles.theta3 * (Real.pi / 180)⟩
    config

/-- The joint pose fed to a frame animator: start position, start absolute
angle, target absolute angle, and the translation length of the link
(called `translateLength` in `robot2d.js` and `targetLength` in `Robot3d.js`). -/
structure JointPose where
  startPos : Point
  startAngle : ℝ
  targetAngle : ℝ
  translateLength : ℝ

/-- The instantaneous animated frame (position and orientation). -/
structure AnimFrame where
  x : ℝ
  y : ℝ
  angle : ℝ

/-- Shallow embedding of the interpolation core of `renderAnimatedFrame` in
`robot2d.js` (lines 360–382).  `rotationOnly` is true exactly for joint 1.
For the other joints the source runs a translation phase first
(`localProgress ≤ 1`, moving along `startAngle`, canvas y-down) and a
rotation phase second (`localProgress > 1`, rotating in place at the
translated position). -/
noncomputable def renderAnimatedFrame2D (pose : JointPose) (rotationOnly : Bool)
    (localProgress : ℝ) : AnimFrame :=
  if rotationOnly then
    ⟨pose.startPos.x, pose.startPos.y,
     pose.startAngle + (pose.targetAngle - pose.startAngle) * min localProgress 1⟩
  else if localProgress ≤ 1 then
    let dist := pose.translateLength * localProgress
    ⟨pose.startPos.x + dist * Real.cos pose.startAngle,
     pose.startPos.y - dist * Real.sin pose.startAngle,
     pose.startAngle⟩
  else
    let rotProgress := min (localProgress - 1) 1
    ⟨pose.startPos.x + pose.translateLength * Real.cos pose.startAngle,
     pose.startPos.y - pose.translateLength * Real.sin pose.startAngle,
     pose.startAngle + (pose.targetAngle - pose.startAngle) * rotProgress⟩

/-- Shallow embedding of the interpolation core of `renderAnimatedFrame3D` in
`Robot3d.js` (lines 180–193): a rotation phase for `localProgress ≤ 1`
(angle interpolated, `currentDist = 0`) and a translation phase for
`localProgress > 1` (angle fixed at the target, distance
`targetLength * (localProgress - 1)` along the current angle, y computed
with `+ sin`). -/
noncomputable def renderAnimatedFrame3D (pose : JointPose) (localProgress : ℝ) : AnimFrame :=
  let currentAngle :=
    if localProgress ≤ 1 then
      pose.startAngle + (pose.targetAngle - pose.startAngle) * localProgress
    else pose.targetAngle
  let currentDist :=
    if localProgress ≤ 1 then 0 else pose.translateLength * (localProgress - 1)
  ⟨pose.startPos.x + currentDist * Real.cos currentAngle,
   pose.startPos.y + currentDist * Real.sin currentAngle,
   currentAngle⟩

/-- Shallow embedding of the play-all windowing at the top of
`renderAnimatedFrame` in `robot2d.js` (lines 314–329): for
`selectedJoint = 0`, joint 1 owns `animProgress ≤ 1` (local progress
`animProgress`), joint 2 owns `1 < animProgress ≤ 3` (local
`animProgress - 1`), joint 3 owns the rest (local `animProgress - 3`);
otherwise the selected joint is active with `localProgress = animProgress`. -/
noncomputable def getActiveJointAndProgress2D (selectedJoint : ℤ) (animProgress : ℝ) :
    ℤ × ℝ :=
  if selectedJoint = 0 then
    if animProgress ≤ 1 then (1, animProgress)
    else if animProgress ≤ 3 then (2, animProgress - 1)
    else (3, animProgress - 3)
  else (selectedJoint, animProgress)

/-- Shallow embedding of `getActiveJointAndProgress` in `Robot3d.js`
(lines 99–106): for `selectedJoint = 0`, the base-yaw phase (`-1`) owns
`animProgress ≤ 2`, joint 1 owns `2 < animProgress ≤ 4`, joint 2 owns
`4 < animProgress ≤ 6`, joint 3 owns the rest. -/
noncomputable def getActiveJointAndProgress3D (selectedJoint : ℤ) (animProgress : ℝ) :
    ℤ × ℝ :=
  if selectedJoint ≠ 0 then (selectedJoint, animProgress)
  else if animProgress ≤ 2 then (-1, animProgress)
  else if animProgress ≤ 4 then (1, animProgress - 2)
  else if animProgress ≤ 6 then (2, animProgress - 4)
  else (3, animProgress - 6)

/-- JavaScript `x % d` for a nonnegative dividend and positive divisor
(the only case the animation clocks hit, since `elapsed = time - startTime ≥ 0`):
equal to the floor-based remainder `x - d * ⌊x / d⌋`. -/
noncomputable def jsMod (x d : ℝ) : ℝ := x - d * ⌊x / d⌋

/-- Shallow embedding of the `animate` callback of `robot2d.js`
(lines 36–56) as a function of the elapsed time in ms:
play-all (`selectedJoint = 0`) uses `DURATION = 15000` and 5 progress units,
joint 1 uses `DURATION = 4000` and 1 unit, joints 2 and 3 use
`DURATION = 4000` and 2 units. -/
noncomputable def animProgress2D (selectedJoint : ℤ) (elapsed : ℝ) : ℝ :=
  if selectedJoint = 0 then jsMod elapsed 15000 / (15000 / 5)
  else if selectedJoint = 1 then jsMod elapsed 4000 / 4000
  else jsMod elapsed 4000 / (4000 / 2)

/-- Shallow embedding of the `animate` callback of `Robot3d.js`
(lines 71–84): play-all uses `DURATION = 16000` and `TOTAL_PROGRESS = 8`,
any single joint uses `DURATION = 4000` and `TOTAL_PROGRESS = 2`. -/
noncomputable def animProgress3D (selectedJoint : ℤ) (elapsed : ℝ) : ℝ :=
  if selectedJoint = 0 then jsMod elapsed 16000 / (16000 / 8)
  else jsMod elapsed 4000 / (4000 / 2)

/-! ### Non-finite JavaScript numbers

`Option ℝ` models a JavaScript number for the purpose of finiteness
tracking: `some v` is the finite value `v`, `none` is a non-finite value
(NaN or ±Infinity).  Every arithmetic operation and trigonometric function
the solver applies maps a non-finite operand to a non-finite result
(`NaN` is absorbing; `cos`/`sin` of `±Infinity` is `NaN`; sums, products
and `Math.hypot` involving a non-finite operand are non-finite), so the
abstraction is sound for non-finite propagation. -/

/-- Lifted addition. -/
noncomputable def jadd : Option ℝ → Option ℝ → Option ℝ
  | some a, some b => some (a + b)
  | _, _ => none

/-- Lifted subtraction. -/
noncomputable def jsub : Option ℝ → Option ℝ → Option ℝ
  | some a, some b => some (a - b)
  | _, _ => none

/-- Lifted multiplication. -/
noncomputable def jmul : Option ℝ → Option ℝ → Option ℝ
  | some a, some b => some (a * b)
  | _, _ => none

/-- Lifted `Math.cos` (`Math.cos(NaN) = Math.cos(±Infinity) = NaN`). -/
noncomputable def jcos : Option ℝ → Option ℝ
  | some a => some (Real.cos a)
  | none => none

/-- Lifted `Math.sin`. -/
noncomputable def jsin : Option ℝ → Option ℝ
  | some a => some (Real.sin a)
  | none => none

/-- Lifted `Math.hypot` on two arguments.  (`Math.hypot` of a NaN and an
Infinity is `Infinity`, which is still non-finite, so collapsing every
non-finite case to `none` is faithful for finiteness.) -/
noncomputable def jhypot : Option ℝ → Option ℝ → Option ℝ
  | some a, some b => some (hypot a b)
  | _, _ => none

/-- Angles whose fields are JavaScript numbers that may be non-finite. -/
structure AnglesJS where
  theta1 : Option ℝ
  theta2 : Option ℝ
  theta3 : Option ℝ

/-- A point whose coordinates may be non-finite. -/
structure PointJS where
  x : Option ℝ
  y : Option ℝ

/-- Cumulative angles that may be non-finite. -/
structure CumAnglesJS where
  absolute1 : Option ℝ
  absolute2 : Option ℝ
  absolute3 : Option ℝ

/-- Realized link lengths that may be non-finite. -/
structure RealizedLinksJS where
  link1 : Option ℝ
  link2 : Option ℝ
  link3 : Option ℝ

/-- Solver result over possibly-non-finite numbers. -/
structure FKResultJS where
  base : PointJS
  joint1 : PointJS
  joint2 : PointJS
  joint3 : PointJS
  angles : CumAnglesJS
  linkLengths : RealizedLinksJS
  reach : Option ℝ

/-- `calculateForwardKinematics` with the angle arithmetic lifted to
possibly-non-finite JavaScript numbers, operation for operation as in
`forwardkinematics.js` lines 379–420.  The configuration is finite (the
claim under scrutiny concerns non-finite *angle* inputs). -/
noncomputable def calculateForwardKinematicsJS (angles : AnglesJS) (config : ConfigOpt) :
    FKResultJS :=
  let finalConfig := mergeConfig config
  let L1 := finalConfig.linkLengths.L1
  let L2 := finalConfig.linkLengths.L2
  let L3 := finalConfig.linkLengths.L3
  let scale := finalConfig.scale
  let base : PointJS := ⟨some finalConfig.baseX, some finalConfig.baseY⟩
  let angle1 := angles.theta1
  let angle2 := jadd angles.theta1 angles.theta2
  let angle3 := jadd (jadd angles.theta1 angles.theta2) angles.theta3
  let joint1 : PointJS :=
    ⟨jadd base.x (jmul (jmul (some L1) (some scale)) (jcos angle1)),
     jsub base.y (jmul (jmul (some L1) (some scale)) (jsin angle1))⟩
  let joint2 : PointJS :=
    ⟨jadd joint1.x (jmul (jmul (some L2) (some scale)) (jcos angle2)),
     jsub joint1.y (jmul (jmul (some L2) (some scale)) (jsin angle2))⟩
  let joint3 : PointJS :=
    ⟨jadd joint2.x (jmul (jmul (some L3) (some scale)) (jcos angle3)),
     jsub joint2.y (jmul (jmul (some L3) (some scale)) (jsin angle3))⟩
  let linkLengths : RealizedLinksJS :=
    ⟨jhypot (jsub joint1.x base.x) (jsub joint1.y base.y),
     jhypot (jsub joint2.x joint1.x) (jsub joint2.y joint1.y),
     jhypot (jsub joint3.x joint2.x) (jsub joint3.y joint2.y)⟩
  let reach := jhypot (jsub joint3.x base.x) (jsub joint3.y base.y)
  { base := base
    joint1 := joint1
    joint2 := joint2
    joint3 := joint3
    angles := ⟨angle1, angle2, angle3⟩
    linkLengths := linkLengths
    reach := reach }

/-! ### IEEE-754 binary64 rounding over the rationals

JavaScript numbers are IEEE-754 binary64 values and every arithmetic
operation rounds its exact result to the nearest representable value, ties
to even.  `fl64` models that rounding for values in the normal range
(amply covering every value appearing below); it is executable over `ℚ`
so concrete instances can be settled by `decide`. -/

/-- Round a rational to the nearest integer, ties to even. -/
def rne (q : ℚ) : ℤ :=
  let f := ⌊q⌋
  let r := q - (f : ℚ)
  if r < 1/2 then f
  else if 1/2 < r then f + 1
  else if 2 ∣ f then f else f + 1

/-- Binary exponent search: returns `e` with `2 ^ e ≤ q < 2 ^ (e + 1)` for
positive `q` (given enough fuel; 2200 steps cover the full binary64 range). -/
def expSearch (fuel : ℕ) (q : ℚ) (e : ℤ) : ℤ :=
  if h : fuel = 0 then e
  else if 2 ≤ q then expSearch (fuel - 1) (q / 2) (e + 1)
  else if q < 1 then expSearch (fuel - 1) (2 * q) (e - 1)
  else e
termination_by fuel
decreasing_by all_goals omega

/-- Round a rational to the nearest IEEE-754 binary64 value (normal range,
round to nearest, ties to even): scale the magnitude into `[2^52, 2^53)`,
round to an integer significand, and scale back. -/
def fl64 (q : ℚ) : ℚ :=
  if q = 0 then 0
  else
    let e := expSearch 2200 |q| 0
    (rne (q * 2 ^ (52 - e)) : ℚ) * 2 ^ (e - 52)

/-- The cumulative-angle computation of `forwardkinematics.js`
(lines 390–392) under binary64 arithmetic: each `+` rounds. -/
def cumAnglesF (theta1 theta2 theta3 : ℚ) : ℚ × ℚ × ℚ :=
  (theta1, fl64 (theta1 + theta2), fl64 (fl64 (theta1 + theta2) + theta3))

/-! ### Helper lemmas -/

/-- A link's realized length: the hypotenuse formed by a `±L*scale*cos/sin`
displacement has length `|K|`. -/
lemma hypot_link (a b K θ : ℝ) :
    hypot (a + K * Real.cos θ - a) (b - K * Real.sin θ - b) = |K| := by
  have h : (a + K * Real.cos θ - a) ^ 2 + (b - K * Real.sin θ - b) ^ 2 = K ^ 2 := by
    have hcs : Real.sin θ ^ 2 + Real.cos θ ^ 2 = 1 := Real.sin_sq_add_cos_sq θ
    linear_combination K ^ 2 * hcs
  rw [hypot, h, Real.sqrt_sq_eq_abs]

/-- The realized first link length is `|L1 * scale|`. -/
lemma link1_eq_abs (a : Angles) (c : ConfigOpt) :
    (calculateForwardKinematics a c).linkLengths.link1 =
      |(mergeConfig c).linkLengths.L1 * (mergeConfig c).scale| :=
  hypot_link _ _ _ _

/-- The realized second link length is `|L2 * scale|`. -/
lemma link2_eq_abs (a : Angles) (c : ConfigOpt) :
    (calculateForwardKinematics a c).linkLengths.link2 =
      |(mergeConfig c).linkLengths.L2 * (mergeConfig c).scale| :=
  hypot_link _ _ _ _

/-- The realized third link length is `|L3 * scale|`. -/
lemma link3_eq_abs (a : Angles) (c : ConfigOpt) :
    (calculateForwardKinematics a c).linkLengths.link3 =
      |(mergeConfig c).linkLengths.L3 * (mergeConfig c).scale| :=
  hypot_link _ _ _ _

/-- `jsMod` in terms of the fractional part. -/
lemma jsMod_eq_fract (x : ℝ) {d : ℝ} (hd : d ≠ 0) :
    jsMod x d = d * Int.fract (x / d) := by
  unfold jsMod Int.fract
  field_simp

/-- `jsMod` is nonnegative for a positive divisor. -/
lemma jsMod_nonneg (x : ℝ) {d : ℝ} (hd : 0 < d) : 0 ≤ jsMod x d := by
  rw [jsMod_eq_fract x hd.ne']
  exact mul_nonneg hd.le (Int.fract_nonneg _)

/-- `jsMod` is below a positive divisor. -/
lemma jsMod_lt (x : ℝ) {d : ℝ} (hd : 0 < d) : jsMod x d < d := by
  rw [jsMod_eq_fract x hd.ne']
  calc d * Int.fract (x / d) < d * 1 := by
        exact mul_lt_mul_of_pos_left (Int.fract_lt_one _) hd
    _ = d := mul_one d

/-- `jsMod` is the identity on `[0, d)`. -/
lemma jsMod_eq_self {x d : ℝ} (hd : 0 < d) (hx : 0 ≤ x) (hxd : x < d) :
    jsMod x d = x := by
  unfold jsMod
  have hfloor : ⌊x / d⌋ = 0 := by
    rw [Int.floor_eq_zero_iff]
    constructor
    · exact div_nonneg hx hd.le
    · rw [div_lt_one hd]
      exact hxd
  rw [hfloor]
  simp

/-- Every value of `[0, t)` is attained by the sawtooth `jsMod e d / (d / t)`. -/
lemma sawtooth_attains {d t : ℝ} (p : ℝ) (hd : 0 < d) (ht : 0 < t)
    (hp : 0 ≤ p) (hpt : p < t) : ∃ e, 0 ≤ e ∧ jsMod e d / (d / t) = p := by
  have hdt : 0 < d / t := div_pos hd ht
  refine ⟨p * (d / t), mul_nonneg hp hdt.le, ?_⟩
  have he : p * (d / t) < d := by
    calc p * (d / t) < t * (d / t) := by exact mul_lt_mul_of_pos_right hpt hdt
      _ = d := by field_simp
  rw [jsMod_eq_self hd (mul_nonneg hp hdt.le) he]
  field_simp

/-! ### Claim theorems -/

/-- C1 counterexample: the claim's y-up equation `joint1.y = base.y +
L1*scale*sin(theta1)` fails at `theta1 = π/2` with the default
configuration: the code computes `base.y - L1*scale*sin(theta1)`, giving
`-80` where the claim demands `+80`. -/
theorem C1_counterexample :
    ¬ ((calculateForwardKinematics ⟨Real.pi / 2, 0, 0⟩ emptyConfig).joint1.y =
        (calculateForwardKinematics ⟨Real.pi / 2, 0, 0⟩ emptyConfig).base.y +
          40 * 2 * Real.sin (Real.pi / 2)) := by
  show ¬ ((0 : ℝ) - 40 * 2 * Real.sin (Real.pi / 2) =
      (0 : ℝ) + 40 * 2 * Real.sin (Real.pi / 2))
  rw [Real.sin_pi_div_two]
  norm_num

/-- C1 amended: the solver satisfies the claimed chain equations except
that every y component is computed by *subtracting* the sin term (canvas
y-down convention baked into the solver): `joint1 = base + L1*scale*(cos θ₁,
-sin θ₁)`, `joint2 = joint1 + L2*scale*(cos (θ₁+θ₂), -sin (θ₁+θ₂))`,
`joint3 = joint2 + L3*scale*(cos (θ₁+θ₂+θ₃), -sin (θ₁+θ₂+θ₃))`, with
`base = (baseX, baseY)`. -/
theorem C1_amended (a : Angles) (c : ConfigOpt) :
    (calculateForwardKinematics a c).base.x = (mergeConfig c).baseX ∧
    (calculateForwardKinematics a c).base.y = (mergeConfig c).baseY ∧
    (calculateForwardKinematics a c).joint1.x =
      (calculateForwardKinematics a c).base.x +
        (mergeConfig c).linkLengths.L1 * (mergeConfig c).scale * Real.cos a.theta1 ∧
    (calculateForwardKinematics a c).joint1.y =
      (calculateForwardKinematics a c).base.y -
        (mergeConfig c).linkLengths.L1 * (mergeConfig c).scale * Real.sin a.theta1 ∧
    (calculateForwardKinematics a c).joint2.x =
      (calculateForwardKinematics a c).joint1.x +
        (mergeConfig c).linkLengths.L2 * (mergeConfig c).scale *
          Real.cos (a.theta1 + a.theta2) ∧
    (calculateForwardKinematics a c).joint2.y =
      (calculateForwardKinematics a c).joint1.y -
        (mergeConfig c).linkLengths.L2 * (mergeConfig c).scale *
          Real.sin (a.theta1 + a.theta2) ∧
    (calculateForwardKinematics a c).joint3.x =
      (calculateForwardKinematics a c).joint2.x +
        (mergeConfig c).linkLengths.L3 * (mergeConfig c).scale *
          Real.cos (a.theta1 + a.theta2 + a.theta3) ∧
    (calculateForwardKinematics a c).joint3.y =
      (calculateForwardKinematics a c).joint2.y -
        (mergeConfig c).linkLengths.L3 * (mergeConfig c).scale *
          Real.sin (a.theta1 + a.theta2 + a.theta3) :=
  ⟨rfl, rfl, rfl, rfl, rfl, rfl, rfl, rfl⟩

/-- C2 counterexample: the 2D frame animator does not rotate first.  At
`localProgress = 1/2` (inside the claim's rotation phase, where position
must still equal `startPosition`) with start position `(0,0)`, start angle
`0` and translation length `80`, the 2D animator has already moved to
`x = 40`. -/
theorem C2_counterexample :
    (renderAnimatedFrame2D ⟨⟨0, 0⟩, 0, 0, 80⟩ false (1 / 2)).x ≠ 0 := by
  have h12 : ((1 : ℝ) / 2) ≤ 1 := by norm_num
  simp only [renderAnimatedFrame2D, Bool.false_eq_true, if_pos h12, ite_false]
  rw [Real.cos_zero]
  norm_num

/-- C2 amended: the *3D* frame animator (`renderAnimatedFrame3D`) behaves
exactly as claimed — rotation in place on `[0,1]`, then translation along
`dir(targetAngle)` (with `+ sin` for y) on `(1,2]`.  The *2D* animator
(`renderAnimatedFrame2D`, non-rotation-only joints) does the opposite:
on `[0,1]` it translates along `startAngle` (canvas y-down, `- sin`) with
the angle fixed at `startAngle`, and on `(1,2]` it rotates in place at the
translated position. -/
theorem C2_amended (p : JointPose) (lp : ℝ) :
    (lp ≤ 1 →
      renderAnimatedFrame3D p lp =
        ⟨p.startPos.x, p.startPos.y,
         p.startAngle + (p.targetAngle - p.startAngle) * lp⟩) ∧
    (1 < lp → lp ≤ 2 →
      renderAnimatedFrame3D p lp =
        ⟨p.startPos.x + p.translateLength * (lp - 1) * Real.cos p.targetAngle,
         p.startPos.y + p.translateLength * (lp - 1) * Real.sin p.targetAngle,
         p.targetAngle⟩) ∧
    (lp ≤ 1 →
      renderAnimatedFrame2D p false lp =
        ⟨p.startPos.x + p.translateLength * lp * Real.cos p.startAngle,
         p.startPos.y - p.translateLength * lp * Real.sin p.startAngle,
         p.startAngle⟩) ∧
    (1 < lp → lp ≤ 2 →
      renderAnimatedFrame2D p false lp =
        ⟨p.startPos.x + p.translateLength * Real.cos p.startAngle,
         p.startPos.y - p.translateLength * Real.sin p.startAngle,
         p.startAngle + (p.targetAngle - p.startAngle) * (lp - 1)⟩) := by
  refine ⟨fun h1 => ?_, fun h1 h2 => ?_, fun h1 => ?_, fun h1 h2 => ?_⟩
  · simp only [renderAnimatedFrame3D, if_pos h1]
    congr 1 <;> ring
  · simp only [renderAnimatedFrame3D, if_neg (not_le.mpr h1)]
  · simp only [renderAnimatedFrame2D, Bool.false_eq_true, if_neg, if_pos h1, ite_false]
  · have hmin : min (lp - 1) 1 = lp - 1 := min_eq_left (by linarith)
    simp only [renderAnimatedFrame2D, Bool.false_eq_true, if_neg (not_le.mpr h1), ite_false,
      hmin]

/-- C2 witness: the amended claim at a concrete pose and `localProgress = 2`. -/
theorem C2_witness :
    renderAnimatedFrame3D ⟨⟨0, 0⟩, 0, 1, 1⟩ 2 =
      ⟨0 + 1 * (2 - 1) * Real.cos 1, 0 + 1 * (2 - 1) * Real.sin 1, 1⟩ :=
  (C2_amended ⟨⟨0, 0⟩, 0, 1, 1⟩ 2).2.1 (by norm_num) (by norm_num)

/-- C3 counterexample: the claim puts joint 1 in charge of all of `[0,2)`,
but at `rawProgress = 3/2` the 2D play-all windowing already reports
joint 2 (its windows are `[0,1]`, `(1,3]`, `(3,∞)`, with boundary ties to
the *earlier* window). -/
theorem C3_counterexample : (getActiveJointAndProgress2D 0 (3 / 2)).1 ≠ 1 := by
  norm_num [getActiveJointAndProgress2D]

/-- C3 amended: in play-all mode the 2D windowing assigns joint 1 to
`animProgress ∈ [0,1]` with local progress `animProgress`, joint 2 to
`(1,3]` with `animProgress - 1`, and joint 3 to `(3,∞)` (in particular
`(3,5)`, the 2D clock's actual sweep) with `animProgress - 3`; the 3D
windowing assigns base yaw (`-1`) to `[0,2]`, joint 1 to `(2,4]`, joint 2
to `(4,6]` and joint 3 to `(6,∞)` (in particular `(6,8)`).  Boundary ties
belong to the *earlier* window in both variants, every raw progress value
resolves to a defined joint, and the 2D and 3D windows disagree. -/
theorem C3_amended (r : ℝ) :
    ((0 ≤ r → r ≤ 1 → getActiveJointAndProgress2D 0 r = (1, r)) ∧
     (1 < r → r ≤ 3 → getActiveJointAndProgress2D 0 r = (2, r - 1)) ∧
     (3 < r → getActiveJointAndProgress2D 0 r = (3, r - 3))) ∧
    ((0 ≤ r → r ≤ 2 → getActiveJointAndProgress3D 0 r = (-1, r)) ∧
     (2 < r → r ≤ 4 → getActiveJointAndProgress3D 0 r = (1, r - 2)) ∧
     (4 < r → r ≤ 6 → getActiveJointAndProgress3D 0 r = (2, r - 4)) ∧
     (6 < r → getActiveJointAndProgress3D 0 r = (3, r - 6))) := by
  unfold getActiveJointAndProgress2D getActiveJointAndProgress3D
  norm_num
  refine ⟨⟨fun h0 h1 => by simp [h1], fun h1 h3 => ?_, fun h3 => ?_⟩,
          ⟨fun h0 h2 => by simp [h2], fun h2 h4 => ?_, fun h4 h6 => ?_, fun h6 => ?_⟩⟩
  · rw [if_neg (not_le.mpr h1), if_pos h3]
  · rw [if_neg (not_le.mpr (by linarith)), if_neg (not_le.mpr h3)]
  · rw [if_neg (not_le.mpr h2), if_pos h4]
  · rw [if_neg (not_le.mpr (by linarith)), if_neg (not_le.mpr h4), if_pos h6]
  · rw [if_neg (not_le.mpr (by linarith)), if_neg (not_le.mpr (by linarith)),
      if_neg (not_le.mpr h6)]

/-- C3 witness: at `rawProgress = 2` exactly, the 2D play-all windowing
reports joint 2 with local progress `1` (the claim expected local
progress `0` there). -/
theorem C3_witness : getActiveJointAndProgress2D 0 2 = (2, 2 - 1) :=
  (C3_amended 2).1.2.1 (by norm_num) (by norm_num)

/-- C4 counterexample: the claim makes the 2D play-all clock sweep
`[0, 6)`, so the value `11/2` would be attained; in fact the 2D play-all
clock is `(elapsed % 15000) / (15000 / 5)`, a 5-unit sawtooth, and no
elapsed time ever produces `11/2`. -/
theorem C4_counterexample : ¬ ∃ e : ℝ, animProgress2D 0 e = 11 / 2 := by
  rintro ⟨e, he⟩
  have hlt : animProgress2D 0 e < 5 := by
    unfold animProgress2D
    rw [if_pos rfl]
    have h := jsMod_lt e (by norm_num : (0 : ℝ) < 15000)
    rw [div_lt_iff₀ (by norm_num : (0 : ℝ) < 15000 / 5)]
    linarith
  rw [he] at hlt
  norm_num at hlt

/-- C4 amended: the clocks are sawtooths over the following actual ranges —
2D: `[0,5)` for play-all (5 units: 1 + 2 + 2), `[0,1)` for joint 1
(rotation only), `[0,2)` for joints 2 and 3; 3D: `[0,8)` for play-all
(4 × 2 units including base yaw) and `[0,2)` for any single joint.  Each
play-all range is fully swept (every value of it is attained). -/
theorem C4_amended :
    (∀ e : ℝ,
      (0 ≤ animProgress2D 0 e ∧ animProgress2D 0 e < 5) ∧
      (0 ≤ animProgress2D 1 e ∧ animProgress2D 1 e < 1) ∧
      (∀ j : ℤ, j ≠ 0 → j ≠ 1 →
        0 ≤ animProgress2D j e ∧ animProgress2D j e < 2) ∧
      (0 ≤ animProgress3D 0 e ∧ animProgress3D 0 e < 8) ∧
      (∀ j : ℤ, j ≠ 0 → 0 ≤ animProgress3D j e ∧ animProgress3D j e < 2)) ∧
    (∀ p : ℝ, 0 ≤ p → p < 5 → ∃ e, 0 ≤ e ∧ animProgress2D 0 e = p) ∧
    (∀ p : ℝ, 0 ≤ p → p < 8 → ∃ e, 0 ≤ e ∧ animProgress3D 0 e = p) := by
  have h15 : (0 : ℝ) < 15000 := by norm_num
  have h4 : (0 : ℝ) < 4000 := by norm_num
  have h16 : (0 : ℝ) < 16000 := by norm_num
  refine ⟨fun e => ⟨⟨?_, ?_⟩, ⟨?_, ?_⟩, fun j hj0 hj1 => ⟨?_, ?_⟩, ⟨?_, ?_⟩,
      fun j hj0 => ⟨?_, ?_⟩⟩, fun p hp0 hp5 => ?_, fun p hp0 hp8 => ?_⟩
  · unfold animProgress2D
    rw [if_pos rfl]
    exact div_nonneg (jsMod_nonneg e h15) (by norm_num)
  · unfold animProgress2D
    rw [if_pos rfl, div_lt_iff₀ (by norm_num : (0 : ℝ) < 15000 / 5)]
    have := jsMod_lt e h15
    linarith
  · unfold animProgress2D
    rw [if_neg (by norm_num), if_pos rfl]
    exact div_nonneg (jsMod_nonneg e h4) (by norm_num)
  · unfold animProgress2D
    rw [if_neg (by norm_num), if_pos rfl, div_lt_one h4]
    exact jsMod_lt e h4
  · unfold animProgress2D
    rw [if_neg hj0, if_neg hj1]
    exact div_nonneg (jsMod_nonneg e h4) (by norm_num)
  · unfold animProgress2D
    rw [if_neg hj0, if_neg hj1, div_lt_iff₀ (by norm_num : (0 : ℝ) < 4000 / 2)]
    have := jsMod_lt e h4
    linarith
  · unfold animProgress3D
    rw [if_pos rfl]
    exact div_nonneg (jsMod_nonneg e h16) (by norm_num)
  · unfold animProgress3D
    rw [if_pos rfl, div_lt_iff₀ (by norm_num : (0 : ℝ) < 16000 / 8)]
    have := jsMod_lt e h16
    linarith
  · unfold animProgress3D
    rw [if_neg hj0]
    exact div_nonneg (jsMod_nonneg e h4) (by norm_num)
  · unfold animProgress3D
    rw [if_neg hj0, div_lt_iff₀ (by norm_num : (0 : ℝ) < 4000 / 2)]
    have := jsMod_lt e h4
    linarith
  · obtain ⟨e, he0, he⟩ := sawtooth_attains p h15 (by norm_num : (0 : ℝ) < 5) hp0 hp5
    refine ⟨e, he0, ?_⟩
    unfold animProgress2D
    rw [if_pos rfl]
    exact he
  · obtain ⟨e, he0, he⟩ := sawtooth_attains p h16 (by norm_num : (0 : ℝ) < 8) hp0 hp8
    refine ⟨e, he0, ?_⟩
    unfold animProgress3D
    rw [if_pos rfl]
    exact he

/-- C4 witness: the amended claim at concrete inputs — the 2D play-all
clock attains `9/2` (which is beyond a 2-unit window but inside the actual
5-unit sweep). -/
theorem C4_witness : ∃ e : ℝ, 0 ≤ e ∧ animProgress2D 0 e = 9 / 2 :=
  C4_amended.2.1 (9 / 2) (by norm_num) (by norm_num)

/-- A configuration with a negative first link length (the solver accepts
arbitrary numeric inputs and does not reject it). -/
def negConfig : ConfigOpt := ⟨some ⟨some (-40), none, none⟩, none, none, none⟩

/-- C5 counterexample: the claim quantifies over *every* link-length input,
but for `L1 = -40` (scale 2) the realized first link length is the
Euclidean distance `|-40 * 2| = 80`, not `L1 * scale = -80`. -/
theorem C5_counterexample :
    (calculateForwardKinematics ⟨0, 0, 0⟩ negConfig).linkLengths.link1 ≠
      (mergeConfig negConfig).linkLengths.L1 * (mergeConfig negConfig).scale := by
  rw [link1_eq_abs]
  have hL : (mergeConfig negConfig).linkLengths.L1 * (mergeConfig negConfig).scale =
      (-80 : ℝ) := by
    norm_num [mergeConfig, mergeLinkLengths, negConfig, DEFAULT_CONFIG, DEFAULT_LINK_LENGTHS]
  rw [hL]
  norm_num

/-- C5 amended: the realized link lengths equal the Euclidean distances
between consecutive joints by construction, those distances equal
`|Li * scale|` for all inputs (hence `Li * scale` whenever `Li * scale ≥ 0`,
in particular on the documented positive domain), and `reach` is exactly
the distance from `joint3` to `base`. -/
theorem C5_amended (a : Angles) (c : ConfigOpt) :
    (calculateForwardKinematics a c).linkLengths.link1 =
      hypot ((calculateForwardKinematics a c).joint1.x -
          (calculateForwardKinematics a c).base.x)
        ((calculateForwardKinematics a c).joint1.y -
          (calculateForwardKinematics a c).base.y) ∧
    (calculateForwardKinematics a c).linkLengths.link2 =
      hypot ((calculateForwardKinematics a c).joint2.x -
          (calculateForwardKinematics a c).joint1.x)
        ((calculateForwardKinematics a c).joint2.y -
          (calculateForwardKinematics a c).joint1.y) ∧
    (calculateForwardKinematics a c).linkLengths.link3 =
      hypot ((calculateForwardKinematics a c).joint3.x -
          (calculateForwardKinematics a c).joint2.x)
        ((calculateForwardKinematics a c).joint3.y -
          (calculateForwardKinematics a c).joint2.y) ∧
    (calculateForwardKinematics a c).reach =
      hypot ((calculateForwardKinematics a c).joint3.x -
          (calculateForwardKinematics a c).base.x)
        ((calculateForwardKinematics a c).joint3.y -
          (calculateForwardKinematics a c).base.y) ∧
    (calculateForwardKinematics a c).linkLengths.link1 =
      |(mergeConfig c).linkLengths.L1 * (mergeConfig c).scale| ∧
    (calculateForwardKinematics a c).linkLengths.link2 =
      |(mergeConfig c).linkLengths.L2 * (mergeConfig c).scale| ∧
    (calculateForwardKinematics a c).linkLengths.link3 =
      |(mergeConfig c).linkLengths.L3 * (mergeConfig c).scale| ∧
    (0 ≤ (mergeConfig c).linkLengths.L1 * (mergeConfig c).scale →
      (calculateForwardKinematics a c).linkLengths.link1 =
        (mergeConfig c).linkLengths.L1 * (mergeConfig c).scale) ∧
    (0 ≤ (mergeConfig c).linkLengths.L2 * (mergeConfig c).scale →
      (calculateForwardKinematics a c).linkLengths.link2 =
        (mergeConfig c).linkLengths.L2 * (mergeConfig c).scale) ∧
    (0 ≤ (mergeConfig c).linkLengths.L3 * (mergeConfig c).scale →
      (calculateForwardKinematics a c).linkLengths.link3 =
        (mergeConfig c).linkLengths.L3 * (mergeConfig c).scale) :=
  ⟨rfl, rfl, rfl, rfl, link1_eq_abs a c, link2_eq_abs a c, link3_eq_abs a c,
   fun h => by rw [link1_eq_abs, abs_of_nonneg h],
   fun h => by rw [link2_eq_abs, abs_of_nonneg h],
   fun h => by rw [link3_eq_abs, abs_of_nonneg h]⟩

/-- C5 witness: the amended claim at the default configuration, where
`L1 * scale = 80 ≥ 0`, so the realized first link length equals
`L1 * scale` on the nose. -/
theorem C5_witness :
    (calculateForwardKinematics ⟨0, 0, 0⟩ emptyConfig).linkLengths.link1 =
      (mergeConfig emptyConfig).linkLengths.L1 * (mergeConfig emptyConfig).scale :=
  (C5_amended ⟨0, 0, 0⟩ emptyConfig).2.2.2.2.2.2.2.1
    (by norm_num [mergeConfig, mergeLinkLengths, emptyConfig, DEFAULT_CONFIG,
      DEFAULT_LINK_LENGTHS])

/-- C6 amended: in the real-number semantics of the solver the cumulative
angles are the running sums `θ₁`, `θ₁+θ₂`, `θ₁+θ₂+θ₃`, so the differences
recover `θ₂` and `θ₃` exactly.  In the program's IEEE-754 binary64
arithmetic the identities hold only up to rounding, not bit-exactly (see
the counterexample). -/
theorem C6_amended (a : Angles) (c : ConfigOpt) :
    (calculateForwardKinematics a c).angles.absolute1 = a.theta1 ∧
    (calculateForwardKinematics a c).angles.absolute2 -
      (calculateForwardKinematics a c).angles.absolute1 = a.theta2 ∧
    (calculateForwardKinematics a c).angles.absolute3 -
      (calculateForwardKinematics a c).angles.absolute2 = a.theta3 := by
  refine ⟨rfl, ?_, ?_⟩
  · show (a.theta1 + a.theta2) - a.theta1 = a.theta2
    ring
  · show (a.theta1 + a.theta2 + a.theta3) - (a.theta1 + a.theta2) = a.theta3
    ring

/-- C7: the solver is a pure function of its arguments — two calls with
identical inputs produce identical outputs.  (In this embedding the
solver is literally a function, mirroring the source, which reads only
its parameters and the module-level constant `DEFAULT_CONFIG` and mutates
nothing.) -/
theorem C7_deterministic (a₁ a₂ : Angles) (c₁ c₂ : ConfigOpt)
    (ha : a₁ = a₂) (hc : c₁ = c₂) :
    calculateForwardKinematics a₁ c₁ = calculateForwardKinematics a₂ c₂ := by
  rw [ha, hc]

/-- C7 witness: two identical concrete calls agree. -/
theorem C7_witness :
    calculateForwardKinematics ⟨1, 2, 3⟩ emptyConfig =
      calculateForwardKinematics ⟨1, 2, 3⟩ emptyConfig :=
  C7_deterministic ⟨1, 2, 3⟩ ⟨1, 2, 3⟩ emptyConfig emptyConfig rfl rfl

/-- C9: the solver deep-merges the caller's partial configuration with the
defaults — every omitted top-level field takes its default (`scale = 2`,
`baseX = 0`, `baseY = 0`), every present field wins, and a missing or
partially specified `linkLengths` object has each absent entry filled
individually from `L1 = 40`, `L2 = 70`, `L3 = 50`; the solver computes with
exactly this merged configuration. -/
theorem C9_defaults (c : ConfigOpt) :
    (c.scale = none → (mergeConfig c).scale = 2) ∧
    (∀ v, c.scale = some v → (mergeConfig c).scale = v) ∧
    (c.baseX = none → (mergeConfig c).baseX = 0) ∧
    (∀ v, c.baseX = some v → (mergeConfig c).baseX = v) ∧
    (c.baseY = none → (mergeConfig c).baseY = 0) ∧
    (∀ v, c.baseY = some v → (mergeConfig c).baseY = v) ∧
    (c.linkLengths = none → (mergeConfig c).linkLengths = ⟨40, 70, 50⟩) ∧
    (∀ pl, c.linkLengths = some pl →
      (mergeConfig c).linkLengths = ⟨pl.L1.getD 40, pl.L2.getD 70, pl.L3.getD 50⟩) ∧
    (∀ a, (calculateForwardKinematics a c).config = mergeConfig c) := by
  refine ⟨fun h => ?_, fun v h => ?_, fun h => ?_, fun v h => ?_, fun h => ?_,
    fun v h => ?_, fun h => ?_, fun pl h => ?_, fun a => rfl⟩
  · simp [mergeConfig, h, DEFAULT_CONFIG]
  · simp [mergeConfig, h]
  · simp [mergeConfig, h, DEFAULT_CONFIG]
  · simp [mergeConfig, h]
  · simp [mergeConfig, h, DEFAULT_CONFIG]
  · simp [mergeConfig, h]
  · simp [mergeConfig, mergeLinkLengths, h, DEFAULT_LINK_LENGTHS]
  · simp [mergeConfig, mergeLinkLengths, h, DEFAULT_LINK_LENGTHS]

/-- C9 witness: a `linkLengths` object specifying only `L1 = 10` still gets
`L2 = 70` and `L3 = 50` from the defaults. -/
theorem C9_witness :
    (mergeConfig ⟨some ⟨some 10, none, none⟩, none, none, none⟩).linkLengths =
      ⟨10, 70, 50⟩ := by
  obtain ⟨-, -, -, -, -, -, -, h8, -⟩ :=
    C9_defaults ⟨some ⟨some 10, none, none⟩, none, none, none⟩
  simpa using h8 ⟨some 10, none, none⟩ rfl

/-- C10: the degrees entry point equals the radians solver applied to the
same configuration and to each angle defaulted to `0` when missing (or
zero, the real falsy value) and scaled by `π / 180`. -/
theorem C10_degrees (a : AnglesOpt) (c : ConfigOpt) :
    calculateForwardKinematicsDegrees a c =
      calculateForwardKinematics
        ⟨a.theta1.getD 0 * (Real.pi / 180),
         a.theta2.getD 0 * (Real.pi / 180),
         a.theta3.getD 0 * (Real.pi / 180)⟩ c := by
  have h : ∀ x : Option ℝ, orZero x = x.getD 0 := by
    intro x
    cases x with
    | none => rfl
    | some v =>
      by_cases hv : v = 0 <;> simp [orZero, hv]
  unfold calculateForwardKinematicsDegrees
  rw [h, h, h]

/-- Lifted addition absorbs a non-finite left operand. -/
lemma jadd_none_left (x : Option ℝ) : jadd none x = none := by
  cases x <;> rfl

/-- Lifted addition absorbs a non-finite right operand. -/
lemma jadd_none_right (x : Option ℝ) : jadd x none = none := by
  cases x <;> rfl

/-- Lifted subtraction absorbs a non-finite right operand. -/
lemma jsub_none_right (x : Option ℝ) : jsub x none = none := by
  cases x <;> rfl

/-- Lifted multiplication absorbs a non-finite right operand. -/
lemma jmul_none_right (x : Option ℝ) : jmul x none = none := by
  cases x <;> rfl

/-- C8: the solver is total (this embedding is a total function, as the
source, which contains no `throw`) and non-finite angle inputs propagate
as non-finite outputs instead of being sanitized: a non-finite `theta1`
makes every joint coordinate and cumulative angle non-finite, a non-finite
`theta2` makes everything from `joint2`/`absolute2` on non-finite, and a
non-finite `theta3` makes `joint3` and `absolute3` non-finite. -/
theorem C8_nonfinite_propagation (t1 t2 t3 : Option ℝ) (c : ConfigOpt) :
    ((calculateForwardKinematicsJS ⟨none, t2, t3⟩ c).joint1 = ⟨none, none⟩ ∧
     (calculateForwardKinematicsJS ⟨none, t2, t3⟩ c).joint2 = ⟨none, none⟩ ∧
     (calculateForwardKinematicsJS ⟨none, t2, t3⟩ c).joint3 = ⟨none, none⟩ ∧
     (calculateForwardKinematicsJS ⟨none, t2, t3⟩ c).angles = ⟨none, none, none⟩) ∧
    ((calculateForwardKinematicsJS ⟨t1, none, t3⟩ c).joint2 = ⟨none, none⟩ ∧
     (calculateForwardKinematicsJS ⟨t1, none, t3⟩ c).joint3 = ⟨none, none⟩ ∧
     (calculateForwardKinematicsJS ⟨t1, none, t3⟩ c).angles.absolute2 = none ∧
     (calculateForwardKinematicsJS ⟨t1, none, t3⟩ c).angles.absolute3 = none) ∧
    ((calculateForwardKinematicsJS ⟨t1, t2, none⟩ c).joint3 = ⟨none, none⟩ ∧
     (calculateForwardKinematicsJS ⟨t1, t2, none⟩ c).angles.absolute3 = none) := by
  unfold calculateForwardKinematicsJS
  simp only [jadd_none_left, jadd_none_right, jsub_none_right, jmul_none_right, jcos, jsin]
  simp

/-- The lifted solver agrees with the real-valued solver on finite inputs
(adequacy of the `Option ℝ` model): every joint coordinate and cumulative
angle is the `some` of the real solver's value. -/
theorem jsSolver_adequate (a : Angles) (c : ConfigOpt) :
    (calculateForwardKinematicsJS ⟨some a.theta1, some a.theta2, some a.theta3⟩ c).joint1 =
      ⟨some (calculateForwardKinematics a c).joint1.x,
       some (calculateForwardKinematics a c).joint1.y⟩ ∧
    (calculateForwardKinematicsJS ⟨some a.theta1, some a.theta2, some a.theta3⟩ c).joint2 =
      ⟨some (calculateForwardKinematics a c).joint2.x,
       some (calculateForwardKinematics a c).joint2.y⟩ ∧
    (calculateForwardKinematicsJS ⟨some a.theta1, some a.theta2, some a.theta3⟩ c).joint3 =
      ⟨some (calculateForwardKinematics a c).joint3.x,
       some (calculateForwardKinematics a c).joint3.y⟩ ∧
    (calculateForwardKinematicsJS ⟨some a.theta1, some a.theta2, some a.theta3⟩ c).angles =
      ⟨some (calculateForwardKinematics a c).angles.absolute1,
       some (calculateForwardKinematics a c).angles.absolute2,
       some (calculateForwardKinematics a c).angles.absolute3⟩ :=
  ⟨rfl, rfl, rfl, rfl⟩

/-- One downward step of the exponent search (magnitude below 1). -/
lemma expSearch_down (fuel : ℕ) (q : ℚ) (e : ℤ) (hf : fuel ≠ 0) (h2 : ¬ 2 ≤ q)
    (h1 : q < 1) : expSearch fuel q e = expSearch (fuel - 1) (2 * q) (e - 1) := by
  rw [expSearch]
  simp [hf, h2, h1]

/-- The exponent search stops on `[1, 2)`. -/
lemma expSearch_done (fuel : ℕ) (q : ℚ) (e : ℤ) (h2 : ¬ 2 ≤ q) (h1 : ¬ q < 1) :
    expSearch fuel q e = e := by
  rw [expSearch]
  by_cases hf : fuel = 0 <;> simp [hf, h2, h1]

/-- Evaluation scheme for `fl64` from a computed exponent and significand. -/
lemma fl64_eval (q : ℚ) (hq : q ≠ 0) (e : ℤ) (he : expSearch 2200 |q| 0 = e)
    (m : ℤ) (hm : rne (q * 2 ^ (52 - e)) = m) :
    fl64 q = (m : ℚ) * 2 ^ (e - 52) := by
  rw [fl64, if_neg hq, he]
  show ((rne (q * 2 ^ ((52 : ℤ) - e)) : ℤ) : ℚ) * 2 ^ (e - 52) = (m : ℚ) * 2 ^ (e - 52)
  rw [hm]

/-- Rounding the double sum of the binary64 values of `0.1` and `0.2`:
the exact sum `10808639105689191/2^55` scales to the tie
`5404319552844595.5`, which rounds to the even significand, giving the
double `0.30000000000000004`. -/
lemma fl64_sum_point3 :
    fl64 (3602879701896397 / 2 ^ 55 + 3602879701896397 / 2 ^ 54) =
      1351079888211149 / 4503599627370496 := by
  have hsum : (3602879701896397 / 2 ^ 55 + 3602879701896397 / 2 ^ 54 : ℚ) =
      10808639105689191 / 36028797018963968 := by norm_num
  rw [hsum]
  have he : expSearch 2200 |(10808639105689191 / 36028797018963968 : ℚ)| 0 = -2 := by
    have habs : |(10808639105689191 / 36028797018963968 : ℚ)| =
        10808639105689191 / 36028797018963968 := abs_of_pos (by norm_num)
    rw [habs]
    rw [expSearch_down 2200 _ 0 (by norm_num) (by norm_num) (by norm_num)]
    rw [expSearch_down _ _ _ (by norm_num) (by norm_num) (by norm_num)]
    rw [expSearch_done _ _ _ (by norm_num) (by norm_num)]
    norm_num
  have hm : rne ((10808639105689191 / 36028797018963968 : ℚ) * 2 ^ ((52 : ℤ) - -2)) =
      5404319552844596 := by
    have hs2 : (10808639105689191 / 36028797018963968 : ℚ) * 2 ^ ((52 : ℤ) - -2) =
        10808639105689191 / 2 := by norm_num
    rw [hs2, rne]
    have hf : ⌊(10808639105689191 / 2 : ℚ)⌋ = 5404319552844595 := by norm_num
    norm_num [hf]
  rw [fl64_eval _ (by norm_num) _ he _ hm]
  norm_num

/-- The difference `0.30000000000000004 - 0.1` in exact arithmetic is the
binary64 value `7205759403792795/2^55`, and rounding it is the identity. -/
lemma fl64_diff_fixed :
    fl64 (1351079888211149 / 4503599627370496 - 3602879701896397 / 2 ^ 55) =
      7205759403792795 / 36028797018963968 := by
  have hdiff : (1351079888211149 / 4503599627370496 - 3602879701896397 / 2 ^ 55 : ℚ) =
      7205759403792795 / 36028797018963968 := by norm_num
  rw [hdiff]
  have he : expSearch 2200 |(7205759403792795 / 36028797018963968 : ℚ)| 0 = -3 := by
    have habs : |(7205759403792795 / 36028797018963968 : ℚ)| =
        7205759403792795 / 36028797018963968 := abs_of_pos (by norm_num)
    rw [habs]
    rw [expSearch_down 2200 _ 0 (by norm_num) (by norm_num) (by norm_num)]
    rw [expSearch_down _ _ _ (by norm_num) (by norm_num) (by norm_num)]
    rw [expSearch_down _ _ _ (by norm_num) (by norm_num) (by norm_num)]
    rw [expSearch_done _ _ _ (by norm_num) (by norm_num)]
    norm_num
  have hm : rne ((7205759403792795 / 36028797018963968 : ℚ) * 2 ^ ((52 : ℤ) - -3)) =
      7205759403792795 := by
    have hs2 : (7205759403792795 / 36028797018963968 : ℚ) * 2 ^ ((52 : ℤ) - -3) =
        7205759403792795 := by norm_num
    rw [hs2, rne]
    have hf : ⌊(7205759403792795 : ℚ)⌋ = 7205759403792795 := by norm_num
    norm_num [hf]
  rw [fl64_eval _ (by norm_num) _ he _ hm]
  norm_num

/-- C6 counterexample: bit-exactness fails in the program's IEEE-754
binary64 arithmetic.  With `theta1` and `theta2` the binary64 values of
`0.1` and `0.2` (`3602879701896397/2^55` and `3602879701896397/2^54`),
the solver's `absolute2 = theta1 + theta2` rounds to
`0.30000000000000004`, and the double subtraction
`absolute2 - absolute1` yields `0.20000000000000004 ≠ theta2` — exactly
what the JavaScript engine computes. -/
theorem C6_counterexample :
    fl64 ((cumAnglesF (3602879701896397 / 2 ^ 55) (3602879701896397 / 2 ^ 54) 0).2.1 -
        (cumAnglesF (3602879701896397 / 2 ^ 55) (3602879701896397 / 2 ^ 54) 0).1) ≠
      3602879701896397 / 2 ^ 54 := by
  show fl64 (fl64 (3602879701896397 / 2 ^ 55 + 3602879701896397 / 2 ^ 54) -
      3602879701896397 / 2 ^ 55) ≠ 3602879701896397 / 2 ^ 54
  rw [fl64_sum_point3, fl64_diff_fixed]
  norm_num

end KinematLab
